import Mathlib

/-!
# Verification of the BresserWeatherSensorTTN wake-cycle core

Shallow embedding of the persistence, scheduling and uplink-encoding logic of
`src/BresserWeatherSensorTTN.ino`, together with theorems settling the frozen
claims about it.

The embedding follows the source: the RTC-RAM retained globals become an
explicit `RtcData` record; the `cSensor` member variables become a
`SensorMachineState` record; the member functions become Lean functions on
those records.  Machine integers are `Nat` with explicit `% 2^32` where the
C arithmetic wraps.
-/

namespace BresserTTN

/-- 32-bit modulus for `uint32_t` arithmetic. -/
def U32 : Nat := 4294967296

/-- `uint32_t` truncation. -/
def u32 (x : Nat) : Nat := x % U32

/-- `uint32_t` subtraction `a - b` (wrapping, as in C unsigned arithmetic). -/
def usub32 (a b : Nat) : Nat := (a % U32 + U32 - b % U32) % U32

/-- `uint32_t` addition `a + b` (wrapping). -/
def uadd32 (a b : Nat) : Nat := (a + b) % U32

/-- `#define EXTRA_INFO_MEM_SIZE 64` (capacity of the retained extra-info buffer). -/
def EXTRA_INFO_MEM_SIZE : Nat := 64

/-- `#define MAGIC1 (('m' << 24) | ('g' < 16) | ('c' << 8) | '1')`.
The source literally contains `('g' < 16)` — a comparison, which evaluates to
`0` since `'g' = 103` — rather than a shift; the embedding reproduces the
expression as written. -/
def MAGIC1 : Nat := (109 <<< 24) ||| (if (103 : Nat) < 16 then 1 else 0) ||| (99 <<< 8) ||| 49

/-- `#define MAGIC2 (('m' << 24) | ('g' < 16) | ('c' << 8) | '2')`. -/
def MAGIC2 : Nat := (109 <<< 24) ||| (if (103 : Nat) < 16 then 1 else 0) ||| (99 <<< 8) ||| 50

/-- The fields of `Arduino_LoRaWAN::SessionInfo` that this sketch reads and
writes (`NetID`, `DevAddr` and the two 16-byte session keys; bytes are `Nat`
values `< 256`). -/
structure SessionInfo where
  NetID : Nat
  DevAddr : Nat
  NwkSKey : List Nat
  AppSKey : List Nat
  deriving DecidableEq, Repr

/-- The fields of `Arduino_LoRaWAN::SessionState` that this sketch reads and
writes (the sketch stores the whole record and reads `FCntUp` / `FCntDown`). -/
structure SessionState where
  Region : Nat
  LinkDR : Nat
  FCntUp : Nat
  FCntDown : Nat
  gpsTime : Nat
  globalAvail : Nat
  Rx2Frequency : Nat
  PingFrequency : Nat
  Country : Nat
  LinkIntegrity : Nat
  deriving DecidableEq, Repr

/-- An all-zero `SessionState`, the deterministic stand-in for a
default-constructed local in the embedding. -/
def sessionStateZero : SessionState :=
  ⟨0, 0, 0, 0, 0, 0, 0, 0, 0, 0⟩

/-- An all-zero `SessionInfo` (what `memset(&sessionInfo, 0, ...)` produces,
with the key buffers zeroed). -/
def sessionInfoZero : SessionInfo :=
  ⟨0, 0, List.replicate 16 0, List.replicate 16 0⟩

/-- The `RTC_DATA_ATTR` retained globals of the sketch: the persistent session
store.  `rtcSavedExtraInfo` models the fixed 64-byte buffer
`uint8_t rtcSavedExtraInfo[EXTRA_INFO_MEM_SIZE]`. -/
structure RtcData where
  magicFlag1 : Nat
  rtcSavedSessionState : SessionState
  magicFlag2 : Nat
  rtcSavedSessionInfo : SessionInfo
  rtcSavedNExtraInfo : Nat
  rtcSavedExtraInfo : List Nat
  deriving DecidableEq, Repr

/-- `memcpy(dst, src, n)` on byte buffers modelled as lists: the first `n`
bytes come from `src`, the rest of `dst` is untouched. -/
def memcpy (dst src : List Nat) (n : Nat) : List Nat :=
  src.take n ++ dst.drop n

/-- `cMyLoRaWAN::NetSaveSessionInfo` (source lines 620–636): refuses blobs
larger than `EXTRA_INFO_MEM_SIZE` without touching the store; otherwise
overwrites the info, copies the extra bytes, records their length and sets
`magicFlag2 = MAGIC2`. -/
def NetSaveSessionInfo (r : RtcData) (Info : SessionInfo)
    (pExtraInfo : List Nat) (nExtraInfo : Nat) : RtcData :=
  if nExtraInfo > EXTRA_INFO_MEM_SIZE then r
  else
    { r with
      rtcSavedSessionInfo := Info
      rtcSavedNExtraInfo := nExtraInfo
      rtcSavedExtraInfo := memcpy r.rtcSavedExtraInfo pExtraInfo nExtraInfo
      magicFlag2 := MAGIC2 }

/-- `cMyLoRaWAN::NetSaveSessionState` (source lines 692–700): unconditionally
overwrites the stored state and sets `magicFlag1 = MAGIC1`. -/
def NetSaveSessionState (r : RtcData) (State : SessionState) : RtcData :=
  { r with rtcSavedSessionState := State, magicFlag1 := MAGIC1 }

/-- `cMyLoRaWAN::NetGetSessionState` (source lines 704–717): fills in the
caller's state and returns `true` exactly when `magicFlag1 == MAGIC1`;
modelled as `Option` (`none` = returned `false`, caller's buffer untouched). -/
def NetGetSessionState (r : RtcData) : Option SessionState :=
  if r.magicFlag1 = MAGIC1 then some r.rtcSavedSessionState else none

/-- The result record filled in by `GetAbpProvisioningInfo`
(`AbpProvisioningInfo` of the Arduino_LoRaWAN library, fields as listed in the
source comment at lines 725–732). -/
structure AbpProvisioningInfo where
  NwkSKey : List Nat
  AppSKey : List Nat
  DevAddr : Nat
  NetID : Nat
  FCntUp : Nat
  FCntDown : Nat
  deriving DecidableEq, Repr

/-- `cMyLoRaWAN::GetAbpProvisioningInfo` (source lines 721–761): returns
`false` (here `none`) unless `magicFlag1 == MAGIC1 && magicFlag2 == MAGIC2`;
otherwise supplies the saved address, network id, keys and the frame counters
of the saved session state.  `none` forces a full re-join (source comment at
lines 702–703). -/
def GetAbpProvisioningInfo (r : RtcData) : Option AbpProvisioningInfo :=
  if r.magicFlag1 ≠ MAGIC1 ∨ r.magicFlag2 ≠ MAGIC2 then none
  else
    let state := (NetGetSessionState r).getD sessionStateZero
    some
      { NwkSKey := r.rtcSavedSessionInfo.NwkSKey.take 16
        AppSKey := r.rtcSavedSessionInfo.AppSKey.take 16
        DevAddr := r.rtcSavedSessionInfo.DevAddr
        NetID := r.rtcSavedSessionInfo.NetID
        FCntUp := state.FCntUp
        FCntDown := state.FCntDown }

/-- `cMyLoRaWAN::GetSavedSessionInfo` (source lines 652–686; the sketch keeps
this routine under `#if false` because the library never calls it, but it is
the info-record half of the store's load contract): when
`magicFlag2 != MAGIC2` it zeroes the caller's buffers and returns `false`;
otherwise it returns the saved info, the first `nExtraSessionInfo` bytes of
the extra-info buffer and the saved extra-info length.  The `Bool` component
is the C return value. -/
def GetSavedSessionInfo (r : RtcData) (nExtraSessionInfo : Nat) :
    Bool × SessionInfo × List Nat × Nat :=
  if r.magicFlag2 ≠ MAGIC2 then
    (false, sessionInfoZero, List.replicate nExtraSessionInfo 0, 0)
  else
    (true, r.rtcSavedSessionInfo, r.rtcSavedExtraInfo.take nExtraSessionInfo,
      r.rtcSavedNExtraInfo)

/-! ## Wake-cycle controller timing (`setup`, `NetJoin`, `loop`, `NetTxComplete`) -/

/-- `#define SLEEP_INTERVAL 360` (seconds of deep sleep after a cycle). -/
def SLEEP_INTERVAL : Nat := 360

/-- `#define SLEEP_TIMEOUT_INITIAL 1800` (seconds). -/
def SLEEP_TIMEOUT_INITIAL : Nat := 1800

/-- `#define SLEEP_TIMEOUT_JOINED 600` (seconds). -/
def SLEEP_TIMEOUT_JOINED : Nat := 600

/-- LMIC `OSTICKS_PER_SEC` (the default 32768 ticks per second); time is the
tick count since boot. -/
def OSTICKS_PER_SEC : Nat := 32768

/-- LMIC `sec2osticks`. -/
def sec2osticks (s : Nat) : Nat := s * OSTICKS_PER_SEC

/-- The value assigned to the global `sleepTimeout` by `setup()` (source line
444): `sleepTimeout = sec2osticks(SLEEP_TIMEOUT_INITIAL);`.  The parameter is
the value `os_getTime()` would return at that moment; the assignment does not
consult it. -/
def setupSleepTimeout (_tNow : Nat) : Nat := sec2osticks SLEEP_TIMEOUT_INITIAL

/-- `cMyLoRaWAN::NetJoin` (source lines 556–561), called by the network stack
once the node has joined: `sleepTimeout = os_getTime() + sec2osticks(SLEEP_TIMEOUT_JOINED);`.
Returns the new `sleepTimeout`. -/
def NetJoin (tNow : Nat) : Nat := tNow + sec2osticks SLEEP_TIMEOUT_JOINED

/-- The retained/global state the controller-level routines touch. -/
structure ControllerState where
  rtc : RtcData
  runtimeExpired : Bool
  sleepTimeout : Nat
  sensorBusy : Bool
  deriving DecidableEq, Repr

/-- `cMyLoRaWAN::NetTxComplete` (source lines 565–574), called after the
transmission completes: under `SLEEP_EN` it calls `myLoRaWAN.Shutdown()` and
`ESP.deepSleep(SLEEP_INTERVAL * 1000000)`.  It mutates none of the retained
globals; the second component is the requested deep-sleep duration in
microseconds. -/
def NetTxComplete (c : ControllerState) : ControllerState × Option Nat :=
  (c, some (SLEEP_INTERVAL * 1000000))

/-- The `FORCE_SLEEP` watchdog in the global `loop()` (source lines 475–485):
when `os_getTime() > sleepTimeout` it sets `runtimeExpired = true`, shuts the
stack down, zeroes both magic flags and deep-sleeps for
`SLEEP_INTERVAL * 1000000` microseconds; otherwise it does nothing. -/
def forceSleepCheck (tNow : Nat) (c : ControllerState) : ControllerState × Option Nat :=
  if tNow > c.sleepTimeout then
    ({ c with
        runtimeExpired := true
        rtc := { c.rtc with magicFlag1 := 0, magicFlag2 := 0 } },
      some (SLEEP_INTERVAL * 1000000))
  else (c, none)

/-! ## Uplink payload encoder

The sketch serializes with the bundled `LoRa_Serialization` fork, whose
sources are not part of this file set; the five primitives below are therefore
modelled from the spec (§4.3, §6).  Their exact byte values are irrelevant to
the claims proved here — what matters is that each is a pure function of its
argument. -/

/-- Modelled from the spec: `LoraEncoder::writeBitmap` packs eight booleans
into one byte, most-significant-bit-first in argument order (the
`LoRa_Serialization` fork is not under `src/`). -/
def writeBitmap (b7 b6 b5 b4 b3 b2 b1 b0 : Bool) : List Nat :=
  [(cond b7 128 0) + (cond b6 64 0) + (cond b5 32 0) + (cond b4 16 0) +
    (cond b3 8 0) + (cond b2 4 0) + (cond b1 2 0) + (cond b0 1 0)]

/-- Modelled from the spec: `LoraEncoder::writeTemperature` emits a
temperature quantized to 0.1 °C as a signed 16-bit value (two bytes of the
two's-complement pattern); the argument is the temperature in tenths of a
degree. -/
def writeTemperature (tenths : Int) : List Nat :=
  [((tenths % 65536).toNat) / 256 % 256, ((tenths % 65536).toNat) % 256]

/-- Modelled from the spec: `LoraEncoder::writeUint8`. -/
def writeUint8 (v : Nat) : List Nat := [v % 256]

/-- Modelled from the spec: `LoraEncoder::writeUint16`, little-endian. -/
def writeUint16 (v : Nat) : List Nat := [v % 256, v / 256 % 256]

/-- Modelled from the spec: `LoraEncoder::writeUint32`, little-endian. -/
def writeUint32 (v : Nat) : List Nat :=
  [v % 256, v / 256 % 256, v / 65536 % 256, v / 16777216 % 256]

/-- Modelled from the spec: `LoraEncoder::writeRawFloat` emits the four bytes
of the IEEE-754 bit pattern of its argument; the embedding carries the 32-bit
pattern itself. -/
def writeRawFloat (bits : Nat) : List Nat :=
  [bits % 256, bits / 256 % 256, bits / 65536 % 256, bits / 16777216 % 256]

/-- The preprocessor feature toggles consulted by `doUplink`.  The shipped
configuration has `ADC_EN`, `PIN_ADC3_IN`, `ONEWIRE_EN` and
`MITHERMOMETER_EN` set and `SENSORID_EN`, `ENCODE_AS_FLOAT` unset; the
embedding keeps them as parameters so the claims range over build
configurations. -/
structure BuildConfig where
  SENSORID_EN : Bool
  ADC_EN : Bool
  PIN_ADC3_IN : Bool
  ONEWIRE_EN : Bool
  MITHERMOMETER_EN : Bool
  ENCODE_AS_FLOAT : Bool
  deriving DecidableEq, Repr

/-- The sensor readings available to `doUplink` when it builds the frame:
the `weatherSensor` fields it reads, the two voltage measurements, the
OneWire water temperature and the BLE indoor readings.  Temperatures are in
tenths of a degree (the encoder's quantum); `float` fields that are emitted
raw carry their 32-bit IEEE pattern.  `water_temp_valid` models
`water_temp_c != DEVICE_DISCONNECTED_C`; `indoor_humidity_rounded` models
`(uint8_t)(indoor_humidity + 0.5)`. -/
structure SensorSnapshot where
  sensor_id : Nat
  data_ok : Bool
  battery_ok : Bool
  temp_c_tenths : Int
  humidity : Nat
  wind_gust_bits : Nat
  wind_avg_bits : Nat
  wind_dir_bits : Nat
  wind_gust_fp1 : Nat
  wind_avg_fp1 : Nat
  wind_dir_fp1 : Nat
  rain_mm_bits : Nat
  supply_voltage : Nat
  battery_voltage : Nat
  water_temp_valid : Bool
  water_temp_tenths : Int
  mithermometer_valid : Bool
  indoor_temp_tenths : Int
  indoor_humidity_rounded : Nat
  deriving DecidableEq, Repr

/-- Ambient values an impure encoder could have read (the millisecond clock,
the LMIC tick clock, a randomness source).  `doUplink` feeds none of them
into the frame; the determinism claim quantifies over them. -/
structure Ambient where
  time_ms : Nat
  osTime : Nat
  entropy : Nat
  deriving DecidableEq, Repr

/-- The frame construction of `cSensor::doUplink` (source lines 946–1010):
the sentinel substitutions (water temperature `-30.0` when the OneWire probe
is disconnected, indoor temperature `-30` / humidity `0` when the BLE reading
is invalid) followed by the fixed sequence of encoder writes.  The `Ambient`
argument is available, as it is to the C++ code, but no field of the frame
reads it. -/
def encodeUplinkPayload (cfg : BuildConfig) (snap : SensorSnapshot)
    (runtimeExpired : Bool) (_amb : Ambient) : List Nat :=
  let mithermometer_valid := cfg.MITHERMOMETER_EN && snap.mithermometer_valid
  let water_temp_tenths := if snap.water_temp_valid then snap.water_temp_tenths else -300
  let indoor_temp_tenths := if snap.mithermometer_valid then snap.indoor_temp_tenths else -300
  let indoor_humidity := if snap.mithermometer_valid then snap.indoor_humidity_rounded else 0
  (if cfg.SENSORID_EN then writeUint32 snap.sensor_id else [])
    ++ writeBitmap false false false false runtimeExpired mithermometer_valid
        snap.data_ok snap.battery_ok
    ++ writeTemperature snap.temp_c_tenths
    ++ writeUint8 snap.humidity
    ++ (if cfg.ENCODE_AS_FLOAT then
          writeRawFloat snap.wind_gust_bits ++ writeRawFloat snap.wind_avg_bits
            ++ writeRawFloat snap.wind_dir_bits
        else
          writeUint16 snap.wind_gust_fp1 ++ writeUint16 snap.wind_avg_fp1
            ++ writeUint16 snap.wind_dir_fp1)
    ++ writeRawFloat snap.rain_mm_bits
    ++ (if cfg.ADC_EN then writeUint16 snap.supply_voltage else [])
    ++ (if cfg.PIN_ADC3_IN then writeUint16 snap.battery_voltage else [])
    ++ (if cfg.ONEWIRE_EN then writeTemperature water_temp_tenths else [])
    ++ (if cfg.MITHERMOMETER_EN then
          writeTemperature indoor_temp_tenths ++ writeUint8 indoor_humidity
        else [])

/-! ## Uplink scheduler and single-flight guard (`cSensor`) -/

/-- The `cSensor` member variables, plus the global payload buffer
`loraData[PAYLOAD_SIZE]` that `doUplink` writes into. -/
structure SensorMachineState where
  m_fUplinkRequest : Bool
  m_fBusy : Bool
  m_uplinkPeriodMs : Nat
  m_tReference : Nat
  loraData : List Nat
  deriving DecidableEq, Repr

/-- The collaborator-side inputs of one `doUplink` call: whether
`LMIC.opmode & (OP_POLL | OP_TXDATA | OP_TXRXPEND)` is non-zero, whether
`SendBuffer` accepts the buffer (its return value), and the data the frame is
built from. -/
structure UplinkEnv where
  lmicBusy : Bool
  sendAccepted : Bool
  cfg : BuildConfig
  snap : SensorSnapshot
  runtimeExpired : Bool
  amb : Ambient
  deriving DecidableEq, Repr

/-- Outcome of one `doUplink` call: the final `cSensor`/buffer state, whether
`SendBuffer` was invoked, and the value `m_fBusy` held at the moment of that
invocation (`none` when no send was attempted). -/
structure UplinkResult where
  state : SensorMachineState
  sendCalled : Bool
  busyAtSend : Option Bool
  deriving DecidableEq, Repr

/-- `cSensor::doUplink` (source lines 889–1029): skip immediately when
`m_fBusy` is set or the LMIC reports an operation in progress; otherwise
build the frame into `loraData`, set `m_fBusy = true`, call `SendBuffer`,
and reset `m_fBusy = false` right away if `SendBuffer` returned `false`
(the completion callback will then never fire). -/
def doUplink (env : UplinkEnv) (s : SensorMachineState) : UplinkResult :=
  if s.m_fBusy then ⟨s, false, none⟩
  else if env.lmicBusy then ⟨s, false, none⟩
  else
    let payload := encodeUplinkPayload env.cfg env.snap env.runtimeExpired env.amb
    let s1 := { s with
      loraData := memcpy s.loraData payload payload.length
      m_fBusy := true }
    if env.sendAccepted then ⟨s1, true, some s1.m_fBusy⟩
    else ⟨{ s1 with m_fBusy := false }, true, some s1.m_fBusy⟩

/-- The `SendBuffer` completion lambda (source lines 1018–1021): clears
`m_fBusy`, for success and failure alike. -/
def sendDoneCallback (s : SensorMachineState) (_fSuccess : Bool) : SensorMachineState :=
  { s with m_fBusy := false }

/-- The periodic-evaluation half of `cSensor::loop` (source lines 805–815):
`deltaT = millis() - m_tReference` in wrapping `uint32` arithmetic; when
`deltaT >= m_uplinkPeriodMs` the uplink request flag is set and the
reference advances by `(deltaT / m_uplinkPeriodMs) * m_uplinkPeriodMs`. -/
def schedulerEval (tNow : Nat) (s : SensorMachineState) : SensorMachineState :=
  let deltaT := usub32 tNow s.m_tReference
  if deltaT ≥ s.m_uplinkPeriodMs then
    { s with
      m_fUplinkRequest := true
      m_tReference :=
        uadd32 s.m_tReference (deltaT / s.m_uplinkPeriodMs * s.m_uplinkPeriodMs) }
  else s

/-- `cSensor::loop` in full (source lines 803–822): the periodic evaluation,
then — if an uplink was requested — consume the request flag and run
`doUplink`. -/
def sensorLoop (env : UplinkEnv) (tNow : Nat) (s : SensorMachineState) : UplinkResult :=
  let s1 := schedulerEval tNow s
  if s1.m_fUplinkRequest then doUplink env { s1 with m_fUplinkRequest := false }
  else ⟨s1, false, none⟩

/-! ## Helper lemmas -/

/-- Copying `n = src.length` bytes: the first `n` bytes of the result are
exactly `src`. -/
theorem memcpy_take (dst src : List Nat) (n : Nat) (h : src.length = n) :
    (memcpy dst src n).take n = src := by
  subst h
  simp only [memcpy, List.take_length]
  exact List.take_left src _

/-- Copying `n = src.length` bytes leaves the tail of `dst` untouched. -/
theorem memcpy_drop (dst src : List Nat) (n : Nat) (h : src.length = n) :
    (memcpy dst src n).drop n = dst.drop n := by
  subst h
  simp only [memcpy, List.take_length]
  exact List.drop_left src _

/-- Advancing the 32-bit reference by `k` shrinks the 32-bit elapsed time by
`k`, as long as `k` does not overshoot it. -/
theorem usub32_uadd32 (a b k : Nat) (hk : k ≤ usub32 a b) (hk2 : k < U32) :
    usub32 a (uadd32 b k) = usub32 a b - k := by
  simp only [usub32, uadd32, U32] at *
  omega

/-! ## Sample values (used by the witness theorems) -/

/-- A sample session state. -/
def st0 : SessionState := ⟨1, 2, 3, 4, 5, 6, 7, 8, 9, 10⟩

/-- A sample session info with 16-byte keys. -/
def info0 : SessionInfo := ⟨19, 77, List.replicate 16 1, List.replicate 16 2⟩

/-- A store holding both records with valid markers. -/
def rtc0 : RtcData := ⟨MAGIC1, st0, MAGIC2, info0, 2, List.replicate 64 0⟩

/-- The store as it looks on first-ever boot: markers invalid, fields zero. -/
def rtcEmpty : RtcData := ⟨0, sessionStateZero, 0, sessionInfoZero, 0, List.replicate 64 0⟩

/-- The shipped build configuration: `ADC_EN`, `PIN_ADC3_IN`, `ONEWIRE_EN`,
`MITHERMOMETER_EN` defined; `SENSORID_EN`, `ENCODE_AS_FLOAT` not. -/
def cfg0 : BuildConfig := ⟨false, true, true, true, true, false⟩

/-- A sample snapshot (21.3 °C, 55 %, valid readings). -/
def snap0 : SensorSnapshot :=
  { sensor_id := 0, data_ok := true, battery_ok := true
    temp_c_tenths := 213, humidity := 55
    wind_gust_bits := 0, wind_avg_bits := 0, wind_dir_bits := 0
    wind_gust_fp1 := 51, wind_avg_fp1 := 24, wind_dir_fp1 := 1800
    rain_mm_bits := 124, supply_voltage := 3300, battery_voltage := 3000
    water_temp_valid := true, water_temp_tenths := 150
    mithermometer_valid := true, indoor_temp_tenths := 215
    indoor_humidity_rounded := 55 }

/-- A sample ambient environment, and a different one. -/
def amb0 : Ambient := ⟨0, 0, 0⟩

/-- A second ambient environment differing in every component. -/
def amb1 : Ambient := ⟨123456, 98765, 42⟩

/-- An idle sensor machine with the default six-minute period. -/
def sensor0 : SensorMachineState := ⟨false, false, 360000, 0, List.replicate 36 0⟩

/-- A sensor machine with an uplink in flight. -/
def sensorBusy0 : SensorMachineState := { sensor0 with m_fBusy := true }

/-- A benign uplink environment: LMIC idle, `SendBuffer` accepts. -/
def env0 : UplinkEnv := ⟨false, true, cfg0, snap0, false, amb0⟩

/-- An environment in which the LMIC reports an operation in progress. -/
def envLmicBusy : UplinkEnv := { env0 with lmicBusy := true }

/-- An environment in which `SendBuffer` rejects the buffer synchronously. -/
def envRejected : UplinkEnv := { env0 with sendAccepted := false }

/-- A controller state with valid markers and a pending deadline. -/
def ctrl0 : ControllerState := ⟨rtc0, false, 1000, true⟩

/-! ## Claims about the persistent session store -/

/-- C2: `NetSaveSessionInfo` with an extra-info blob longer than the 64-byte
capacity fails and writes nothing — the stored info, extra bytes, length and
validity marker are byte-for-byte unchanged; with a blob within capacity it
overwrites the info, copies the extra bytes, records their length and sets
the info validity marker (leaving the state record and its marker alone). -/
theorem claim_C2_save_info_capacity (r : RtcData) (info : SessionInfo)
    (extra : List Nat) (n : Nat) :
    (EXTRA_INFO_MEM_SIZE < n → NetSaveSessionInfo r info extra n = r)
    ∧ (n ≤ EXTRA_INFO_MEM_SIZE → extra.length = n →
        (NetSaveSessionInfo r info extra n).rtcSavedSessionInfo = info
        ∧ (NetSaveSessionInfo r info extra n).rtcSavedNExtraInfo = n
        ∧ ((NetSaveSessionInfo r info extra n).rtcSavedExtraInfo).take n = extra
        ∧ ((NetSaveSessionInfo r info extra n).rtcSavedExtraInfo).drop n
            = r.rtcSavedExtraInfo.drop n
        ∧ (NetSaveSessionInfo r info extra n).magicFlag2 = MAGIC2
        ∧ (NetSaveSessionInfo r info extra n).magicFlag1 = r.magicFlag1
        ∧ (NetSaveSessionInfo r info extra n).rtcSavedSessionState
            = r.rtcSavedSessionState) := by
  constructor
  · intro h
    simp only [NetSaveSessionInfo, gt_iff_lt, if_pos h]
  · intro h hlen
    have hnot : ¬ (n > EXTRA_INFO_MEM_SIZE) := not_lt.mpr h
    have e : NetSaveSessionInfo r info extra n =
        { r with
          rtcSavedSessionInfo := info
          rtcSavedNExtraInfo := n
          rtcSavedExtraInfo := memcpy r.rtcSavedExtraInfo extra n
          magicFlag2 := MAGIC2 } := by
      simp only [NetSaveSessionInfo, if_neg hnot]
    rw [e]
    exact ⟨rfl, rfl, memcpy_take _ _ _ hlen, memcpy_drop _ _ _ hlen, rfl, rfl, rfl⟩

/-- Witness for C2: a 65-byte blob is refused with the store untouched; a
3-byte blob is stored. -/
theorem claim_C2_witness :
    NetSaveSessionInfo rtcEmpty info0 (List.replicate 65 7) 65 = rtcEmpty
    ∧ (NetSaveSessionInfo rtcEmpty info0 [7, 8, 9] 3).rtcSavedSessionInfo = info0
    ∧ ((NetSaveSessionInfo rtcEmpty info0 [7, 8, 9] 3).rtcSavedExtraInfo).take 3
        = [7, 8, 9]
    ∧ (NetSaveSessionInfo rtcEmpty info0 [7, 8, 9] 3).magicFlag2 = MAGIC2 := by
  have h1 := (claim_C2_save_info_capacity rtcEmpty info0 (List.replicate 65 7) 65).1
    (by decide)
  have h2 := (claim_C2_save_info_capacity rtcEmpty info0 [7, 8, 9] 3).2
    (by decide) (by decide)
  exact ⟨h1, h2.1, h2.2.2.1, h2.2.2.2.2.1⟩

/-- C3: `GetAbpProvisioningInfo` succeeds — supplying the saved address,
network id, keys and frame counters — exactly when both validity markers
match their expected constants; any mismatch makes it return `none`, which
forces a full join. -/
theorem claim_C3_resume_requires_both_markers (r : RtcData) :
    ((GetAbpProvisioningInfo r).isSome ↔
      r.magicFlag1 = MAGIC1 ∧ r.magicFlag2 = MAGIC2)
    ∧ (r.magicFlag1 = MAGIC1 → r.magicFlag2 = MAGIC2 →
        GetAbpProvisioningInfo r = some
          { NwkSKey := r.rtcSavedSessionInfo.NwkSKey.take 16
            AppSKey := r.rtcSavedSessionInfo.AppSKey.take 16
            DevAddr := r.rtcSavedSessionInfo.DevAddr
            NetID := r.rtcSavedSessionInfo.NetID
            FCntUp := r.rtcSavedSessionState.FCntUp
            FCntDown := r.rtcSavedSessionState.FCntDown })
    ∧ (¬ (r.magicFlag1 = MAGIC1 ∧ r.magicFlag2 = MAGIC2) →
        GetAbpProvisioningInfo r = none) := by
  refine ⟨?_, ?_, ?_⟩
  · by_cases h1 : r.magicFlag1 = MAGIC1 <;> by_cases h2 : r.magicFlag2 = MAGIC2 <;>
      simp [GetAbpProvisioningInfo, NetGetSessionState, h1, h2]
  · intro h1 h2
    simp [GetAbpProvisioningInfo, NetGetSessionState, h1, h2]
  · intro h
    rcases not_and_or.mp h with h1 | h2
    · simp [GetAbpProvisioningInfo, h1]
    · simp [GetAbpProvisioningInfo, h2]

/-- Witness for C3: with both markers valid the saved credentials come back;
on the empty (never-written) store the call fails. -/
theorem claim_C3_witness :
    GetAbpProvisioningInfo rtc0 = some
      { NwkSKey := List.replicate 16 1, AppSKey := List.replicate 16 2
        DevAddr := 77, NetID := 19, FCntUp := 3, FCntDown := 4 }
    ∧ GetAbpProvisioningInfo rtcEmpty = none := by
  have h1 := (claim_C3_resume_requires_both_markers rtc0).2.1 rfl rfl
  have h2 := (claim_C3_resume_requires_both_markers rtcEmpty).2.2 (by decide)
  refine ⟨?_, h2⟩
  rw [h1]
  decide

/-- C5: round trip — after `NetSaveSessionState` followed by
`NetSaveSessionInfo` (blob within capacity), loading returns the saved state,
the saved credentials and the saved extra bytes, with both markers valid. -/
theorem claim_C5_round_trip (r : RtcData) (st : SessionState) (info : SessionInfo)
    (extra : List Nat) (n : Nat)
    (hn : n ≤ EXTRA_INFO_MEM_SIZE) (hlen : extra.length = n)
    (hk1 : info.NwkSKey.length = 16) (hk2 : info.AppSKey.length = 16) :
    NetGetSessionState (NetSaveSessionInfo (NetSaveSessionState r st) info extra n)
      = some st
    ∧ GetAbpProvisioningInfo (NetSaveSessionInfo (NetSaveSessionState r st) info extra n)
      = some { NwkSKey := info.NwkSKey, AppSKey := info.AppSKey
               DevAddr := info.DevAddr, NetID := info.NetID
               FCntUp := st.FCntUp, FCntDown := st.FCntDown }
    ∧ ((NetSaveSessionInfo (NetSaveSessionState r st) info extra n).rtcSavedExtraInfo).take n
        = extra
    ∧ (NetSaveSessionInfo (NetSaveSessionState r st) info extra n).rtcSavedNExtraInfo = n
    ∧ (NetSaveSessionInfo (NetSaveSessionState r st) info extra n).magicFlag1 = MAGIC1
    ∧ (NetSaveSessionInfo (NetSaveSessionState r st) info extra n).magicFlag2 = MAGIC2 := by
  have hnot : ¬ (n > EXTRA_INFO_MEM_SIZE) := not_lt.mpr hn
  have e : NetSaveSessionInfo (NetSaveSessionState r st) info extra n =
      { r with
        rtcSavedSessionState := st
        magicFlag1 := MAGIC1
        rtcSavedSessionInfo := info
        rtcSavedNExtraInfo := n
        rtcSavedExtraInfo := memcpy r.rtcSavedExtraInfo extra n
        magicFlag2 := MAGIC2 } := by
    simp only [NetSaveSessionInfo, NetSaveSessionState, if_neg hnot]
  rw [e]
  have estate : NetGetSessionState
      { r with
        rtcSavedSessionState := st
        magicFlag1 := MAGIC1
        rtcSavedSessionInfo := info
        rtcSavedNExtraInfo := n
        rtcSavedExtraInfo := memcpy r.rtcSavedExtraInfo extra n
        magicFlag2 := MAGIC2 } = some st := by
    simp [NetGetSessionState]
  refine ⟨estate, ?_, memcpy_take _ _ _ hlen, rfl, rfl, rfl⟩
  have t1 : info.NwkSKey.take 16 = info.NwkSKey := by
    rw [← hk1]
    exact List.take_length _
  have t2 : info.AppSKey.take 16 = info.AppSKey := by
    rw [← hk2]
    exact List.take_length _
  simp only [GetAbpProvisioningInfo, estate]
  rw [if_neg (by simp)]
  simp only [Option.getD_some]
  rw [t1, t2]

/-- Witness for C5: a concrete save-save-load round trip. -/
theorem claim_C5_witness :
    NetGetSessionState (NetSaveSessionInfo (NetSaveSessionState rtcEmpty st0) info0 [7, 8] 2)
      = some st0
    ∧ GetAbpProvisioningInfo (NetSaveSessionInfo (NetSaveSessionState rtcEmpty st0) info0 [7, 8] 2)
      = some { NwkSKey := List.replicate 16 1, AppSKey := List.replicate 16 2
               DevAddr := 77, NetID := 19, FCntUp := 3, FCntDown := 4 }
    ∧ ((NetSaveSessionInfo (NetSaveSessionState rtcEmpty st0) info0 [7, 8] 2).rtcSavedExtraInfo).take 2
        = [7, 8] := by
  have h := claim_C5_round_trip rtcEmpty st0 info0 [7, 8] 2
    (by decide) (by decide) (by decide) (by decide)
  exact ⟨h.1, h.2.1, h.2.2.1⟩

/-- C6: marker independence of the load — corrupting only the state marker
makes the state load fail while the info load still returns the saved info,
and corrupting only the info marker makes the info load fail (returning
zeroed buffers, never stale data) while the state load still returns the
saved state. -/
theorem claim_C6_marker_independence (r : RtcData) (nq v w : Nat)
    (h1 : r.magicFlag1 = MAGIC1) (h2 : r.magicFlag2 = MAGIC2)
    (hv : v ≠ MAGIC1) (hw : w ≠ MAGIC2) :
    (NetGetSessionState { r with magicFlag1 := v } = none
      ∧ (GetSavedSessionInfo { r with magicFlag1 := v } nq).1 = true
      ∧ (GetSavedSessionInfo { r with magicFlag1 := v } nq).2.1 = r.rtcSavedSessionInfo
      ∧ (GetSavedSessionInfo { r with magicFlag1 := v } nq).2.2.2 = r.rtcSavedNExtraInfo)
    ∧ (GetSavedSessionInfo { r with magicFlag2 := w } nq
        = (false, sessionInfoZero, List.replicate nq 0, 0)
      ∧ NetGetSessionState { r with magicFlag2 := w } = some r.rtcSavedSessionState) := by
  refine ⟨⟨?_, ?_, ?_, ?_⟩, ?_, ?_⟩ <;>
    simp [NetGetSessionState, GetSavedSessionInfo, h1, h2, hv, hw]

/-- Witness for C6: corrupting either marker of a fully valid store. -/
theorem claim_C6_witness :
    (NetGetSessionState { rtc0 with magicFlag1 := 0 } = none
      ∧ (GetSavedSessionInfo { rtc0 with magicFlag1 := 0 } 5).2.1 = info0)
    ∧ (GetSavedSessionInfo { rtc0 with magicFlag2 := 0 } 5
        = (false, sessionInfoZero, List.replicate 5 0, 0)
      ∧ NetGetSessionState { rtc0 with magicFlag2 := 0 } = some st0) := by
  have h := claim_C6_marker_independence rtc0 5 0 0 rfl rfl (by decide) (by decide)
  exact ⟨⟨h.1.1, h.1.2.2.1⟩, h.2.1, h.2.2⟩

/-! ## Claims about the scheduler, the single-flight guard and the controller -/

/-- A controller state with the expired-cycle flag set (for the C7
counterexample). -/
def ctrlExpired : ControllerState := { ctrl0 with runtimeExpired := true }

/-- C1: single flight — a `doUplink` trigger evaluated while `m_fBusy` is set,
or while the LMIC reports an operation in progress, starts no transmission
and changes no scheduler or payload state; the deadline watchdog never
touches the busy flag, the periodic evaluation never touches it, and the
completion callback clears it. -/
theorem claim_C1_single_flight (env : UplinkEnv) (s : SensorMachineState)
    (c : ControllerState) (tNow tEval : Nat) (ok : Bool) :
    (s.m_fBusy = true → doUplink env s = ⟨s, false, none⟩)
    ∧ (env.lmicBusy = true → doUplink env s = ⟨s, false, none⟩)
    ∧ (forceSleepCheck tNow c).1.sensorBusy = c.sensorBusy
    ∧ (schedulerEval tEval s).m_fBusy = s.m_fBusy
    ∧ (sendDoneCallback s ok).m_fBusy = false := by
  refine ⟨?_, ?_, ?_, ?_, rfl⟩
  · intro h
    simp [doUplink, h]
  · intro h
    cases hb : s.m_fBusy <;> simp [doUplink, h, hb]
  · unfold forceSleepCheck
    split <;> rfl
  · simp only [schedulerEval]
    split <;> rfl

/-- Witness for C1: concrete busy machine, expired watchdog, callback. -/
theorem claim_C1_witness :
    doUplink envLmicBusy sensorBusy0 = ⟨sensorBusy0, false, none⟩
    ∧ (forceSleepCheck 2000 ctrl0).1.sensorBusy = ctrl0.sensorBusy
    ∧ (schedulerEval 5 sensorBusy0).m_fBusy = sensorBusy0.m_fBusy
    ∧ (sendDoneCallback sensorBusy0 true).m_fBusy = false := by
  have h := claim_C1_single_flight envLmicBusy sensorBusy0 ctrl0 2000 5 true
  exact ⟨h.1 rfl, h.2.2.1, h.2.2.2.1, h.2.2.2.2⟩

/-- C4: scheduler catch-up — when the 32-bit elapsed time meets or exceeds
the period, one uplink is marked due and the reference advances by the whole
number of periods elapsed; below the period nothing changes; and in the
concrete 360000 ms period / 900000 ms gap case the reference advances by
exactly 720000 ms and an immediate re-evaluation marks nothing further due. -/
theorem claim_C4_scheduler_catchup (tNow : Nat) (s : SensorMachineState)
    (_hp : 0 < s.m_uplinkPeriodMs) :
    (s.m_uplinkPeriodMs ≤ usub32 tNow s.m_tReference →
      (schedulerEval tNow s).m_fUplinkRequest = true
      ∧ (schedulerEval tNow s).m_tReference
          = uadd32 s.m_tReference
              (usub32 tNow s.m_tReference / s.m_uplinkPeriodMs * s.m_uplinkPeriodMs))
    ∧ (usub32 tNow s.m_tReference < s.m_uplinkPeriodMs → schedulerEval tNow s = s)
    ∧ (s.m_uplinkPeriodMs = 360000 → usub32 tNow s.m_tReference = 900000 →
        (schedulerEval tNow s).m_fUplinkRequest = true
        ∧ (schedulerEval tNow s).m_tReference = uadd32 s.m_tReference 720000
        ∧ schedulerEval tNow { schedulerEval tNow s with m_fUplinkRequest := false }
            = { schedulerEval tNow s with m_fUplinkRequest := false }) := by
  refine ⟨?_, ?_, ?_⟩
  · intro h
    simp only [schedulerEval]
    rw [if_pos h]
    exact ⟨rfl, rfl⟩
  · intro h
    simp only [schedulerEval]
    rw [if_neg (not_le.mpr h)]
  · intro hper hdel
    have h6 : s.m_uplinkPeriodMs ≤ usub32 tNow s.m_tReference := by
      rw [hper, hdel]
      norm_num
    have hadv : usub32 tNow s.m_tReference / s.m_uplinkPeriodMs * s.m_uplinkPeriodMs
        = 720000 := by
      rw [hper, hdel]
    have e1 : schedulerEval tNow s =
        { s with
          m_fUplinkRequest := true
          m_tReference := uadd32 s.m_tReference 720000 } := by
      simp only [schedulerEval]
      rw [if_pos h6, hadv]
    have h720 : usub32 tNow (uadd32 s.m_tReference 720000) = 180000 := by
      have hc := usub32_uadd32 tNow s.m_tReference 720000
        (by rw [hdel]; norm_num) (by norm_num [U32])
      rw [hdel] at hc
      simpa using hc
    refine ⟨by rw [e1], by rw [e1], ?_⟩
    have e2 : { schedulerEval tNow s with m_fUplinkRequest := false }
        = { s with
            m_fUplinkRequest := false
            m_tReference := uadd32 s.m_tReference 720000 } := by
      rw [e1]
    rw [e2]
    simp [schedulerEval, h720, hper]

/-- Witness for C4: period 360000 ms, reference 0, evaluation at 900000 ms. -/
theorem claim_C4_witness :
    0 < sensor0.m_uplinkPeriodMs
    ∧ (schedulerEval 900000 sensor0).m_fUplinkRequest = true
    ∧ (schedulerEval 900000 sensor0).m_tReference = uadd32 sensor0.m_tReference 720000
    ∧ schedulerEval 900000 { schedulerEval 900000 sensor0 with m_fUplinkRequest := false }
        = { schedulerEval 900000 sensor0 with m_fUplinkRequest := false } := by
  have h := (claim_C4_scheduler_catchup 900000 sensor0 (by decide)).2.2 rfl (by decide)
  exact ⟨by decide, h.1, h.2.1, h.2.2⟩

/-- C7 counterexample: completing a transmission with both markers valid and
the expired-cycle flag set leaves the whole retained state unchanged — the
markers are still the (non-zero) magic constants and the expired-cycle flag
is still set, so `NetTxComplete` clears neither the validity markers nor the
transient flags, contrary to the claim. -/
theorem claim_C7_counterexample :
    (NetTxComplete ctrlExpired).1 = ctrlExpired
    ∧ ctrlExpired.rtc.magicFlag1 = MAGIC1
    ∧ ctrlExpired.rtc.magicFlag2 = MAGIC2
    ∧ ctrlExpired.runtimeExpired = true
    ∧ MAGIC1 ≠ 0 ∧ MAGIC2 ≠ 0 :=
  ⟨rfl, rfl, rfl, rfl, by decide, by decide⟩

/-- C7 as amended: on transmission completion the controller powers the
device down for the fixed sleep interval leaving the retained state — the
validity markers and the expired-cycle flag included — unchanged; it is the
sleep-deadline watchdog path that zeroes both validity markers, and that path
sets (rather than clears) the expired-cycle flag while powering down for the
same interval. -/
theorem claim_C7_shutdown_behavior (c : ControllerState) (tNow : Nat) :
    (NetTxComplete c).1 = c
    ∧ (NetTxComplete c).2 = some (SLEEP_INTERVAL * 1000000)
    ∧ (c.sleepTimeout < tNow →
        (forceSleepCheck tNow c).1.rtc.magicFlag1 = 0
        ∧ (forceSleepCheck tNow c).1.rtc.magicFlag2 = 0
        ∧ (forceSleepCheck tNow c).1.runtimeExpired = true
        ∧ (forceSleepCheck tNow c).2 = some (SLEEP_INTERVAL * 1000000))
    ∧ (tNow ≤ c.sleepTimeout → forceSleepCheck tNow c = (c, none)) := by
  refine ⟨rfl, rfl, ?_, ?_⟩
  · intro h
    unfold forceSleepCheck
    rw [if_pos h]
    exact ⟨rfl, rfl, rfl, rfl⟩
  · intro h
    unfold forceSleepCheck
    rw [if_neg (not_lt.mpr h)]

/-- Witness for C7 (amended): the watchdog fires past the deadline and stays
quiet before it. -/
theorem claim_C7_witness :
    (NetTxComplete ctrl0).1 = ctrl0
    ∧ (forceSleepCheck 2000 ctrl0).1.rtc.magicFlag1 = 0
    ∧ (forceSleepCheck 2000 ctrl0).1.rtc.magicFlag2 = 0
    ∧ (forceSleepCheck 2000 ctrl0).1.runtimeExpired = true
    ∧ forceSleepCheck 500 ctrl0 = (ctrl0, none) := by
  have h1 := claim_C7_shutdown_behavior ctrl0 2000
  have h2 := claim_C7_shutdown_behavior ctrl0 500
  have hfire := h1.2.2.1 (by decide)
  exact ⟨h1.1, hfire.1, hfire.2.1, hfire.2.2.1, h2.2.2.2 (by decide)⟩

/-- C8 counterexample: if `setup()` runs when the monotonic clock already
reads 1 tick, the deadline it stores is `sec2osticks(1800)`, not
`1 + sec2osticks(1800)` — the initialization deadline is not "now +
InitialTimeoutBudget". -/
theorem claim_C8_counterexample :
    setupSleepTimeout 1 = sec2osticks SLEEP_TIMEOUT_INITIAL
    ∧ setupSleepTimeout 1 ≠ 1 + sec2osticks SLEEP_TIMEOUT_INITIAL :=
  ⟨rfl, by decide⟩

/-- C8 as amended: on entering initialization the sleep deadline is set to
the absolute tick value `sec2osticks(1800)` — 1800 s after the boot-time
clock origin, which coincides with "now + InitialTimeoutBudget" only when
entry occurs at clock value 0; on every successful join/resume the deadline
becomes "now + ActiveTimeoutBudget" with the 600 s budget, the shorter of
the two. -/
theorem claim_C8_sleep_deadline (t tj : Nat) :
    setupSleepTimeout t = sec2osticks SLEEP_TIMEOUT_INITIAL
    ∧ setupSleepTimeout 0 = 0 + sec2osticks SLEEP_TIMEOUT_INITIAL
    ∧ NetJoin tj = tj + sec2osticks SLEEP_TIMEOUT_JOINED
    ∧ sec2osticks SLEEP_TIMEOUT_JOINED < sec2osticks SLEEP_TIMEOUT_INITIAL :=
  ⟨rfl, rfl, rfl, by decide⟩

/-- C9: encoder determinism — for a fixed snapshot, expired-cycle flag and
build configuration the emitted frame is byte-identical across runs,
whatever the ambient clock readings or entropy were; consequently `doUplink`
itself is insensitive to the ambient environment. -/
theorem claim_C9_encoder_deterministic (env : UplinkEnv) (ambQ : Ambient)
    (s : SensorMachineState) :
    encodeUplinkPayload env.cfg env.snap env.runtimeExpired env.amb
      = encodeUplinkPayload env.cfg env.snap env.runtimeExpired ambQ
    ∧ doUplink { env with amb := ambQ } s = doUplink env s :=
  ⟨rfl, rfl⟩

/-- C10: when `SendBuffer` is reached, `m_fBusy` is `true` at the moment of
the call; if `SendBuffer` rejects the buffer synchronously the flag is back
to `false` when `doUplink` returns, and if it accepts, the flag stays set. -/
theorem claim_C10_sync_reject_clears_busy (env : UplinkEnv) (s : SensorMachineState) :
    ((doUplink env s).sendCalled = true → (doUplink env s).busyAtSend = some true)
    ∧ (env.sendAccepted = false → (doUplink env s).sendCalled = true →
        (doUplink env s).state.m_fBusy = false)
    ∧ (env.sendAccepted = true → (doUplink env s).sendCalled = true →
        (doUplink env s).state.m_fBusy = true) := by
  cases hb : s.m_fBusy <;> cases hl : env.lmicBusy <;> cases ha : env.sendAccepted <;>
    simp [doUplink, hb, hl, ha]

/-- Witness for C10: a rejected send leaves the machine idle again, an
accepted one leaves it in flight. -/
theorem claim_C10_witness :
    (doUplink envRejected sensor0).sendCalled = true
    ∧ (doUplink envRejected sensor0).busyAtSend = some true
    ∧ (doUplink envRejected sensor0).state.m_fBusy = false
    ∧ (doUplink env0 sensor0).state.m_fBusy = true := by
  have h := claim_C10_sync_reject_clears_busy envRejected sensor0
  have h2 := claim_C10_sync_reject_clears_busy env0 sensor0
  have hsc : (doUplink envRejected sensor0).sendCalled = true := by decide
  exact ⟨hsc, h.1 hsc, h.2.1 rfl hsc, h2.2.2 rfl (by decide)⟩

end BresserTTN
